import Mathlib

/-!
# Verification of the server-error-handler-node request/response pipeline

A shallow embedding of the Express application in
`server-error-handler-node`: the central error-handling middleware
(`src/middleware/errorHandler.js`), the request logger
(`src/middleware/logger.js`), the authentication routes
(`src/routes/auth.js`), the protected dashboard route
(`src/routes/dashboard.js`) and the JSON API routes (`src/routes/api.js`).

JavaScript values appearing in request bodies are modelled by a small
`Json` inductive with JS truthiness (`""`, `0`, `false`, `null` are falsy;
arrays and objects are truthy).  Machine-level time (`Date.now()`,
`new Date().toISOString()`) is passed in explicitly as a parameter.
Responses are records capturing the observable wire data (status, body,
redirect location, Set-Cookie headers) plus the non-wire local property
written by `res.cookie = sessionId` in `auth.js`.
-/

namespace ServerModel

/-- A JSON value, as produced by `express.json()` body parsing and by the
handlers' `res.json(...)` calls.  Numbers are modelled as integers (the
repository only ever produces integer ids, counts and statuses). -/
inductive Json where
  | str : String → Json
  | num : Int → Json
  | bool : Bool → Json
  | null : Json
  | arr : List Json → Json
  | obj : List (String × Json) → Json
  deriving Repr

/-- JavaScript truthiness of a JSON value: `""`, `0`, `false` and `null`
are falsy; every array and object is truthy. -/
def Json.truthy : Json → Bool
  | .str s => !(s = "")
  | .num n => !(n = 0)
  | .bool b => b
  | .null => false
  | .arr _ => true
  | .obj _ => true

/-- Field lookup in a JSON object (`none` on non-objects and absent keys). -/
def Json.lookup (j : Json) (k : String) : Option Json :=
  match j with
  | .obj fields => fields.lookup k
  | _ => none

/-- JavaScript `!x` on a possibly-absent object field: an absent field
(`undefined`) and a present falsy field are both `!`-true. -/
def jsNot (field : Option Json) : Bool :=
  match field with
  | none => true
  | some v => !v.truthy

/-- JavaScript `a || b` on an optional numeric property, as used in
`err.statusCode || err.status || 500`: an absent property and a present
`0` both fall through to the default. -/
def jsOrNat (o : Option Nat) (d : Nat) : Nat :=
  match o with
  | some n => if n = 0 then d else n
  | none => d

/-- JavaScript `s || d` on a string: the empty string falls through. -/
def jsOrStr (s : String) (d : String) : String :=
  if s = "" then d else s

/-- JavaScript `o || d` on an optional string property, as used in
`err.code || 'INTERNAL_ERROR'`: absent and empty both fall through. -/
def jsOrOptStr (o : Option String) (d : String) : String :=
  match o with
  | some s => if s = "" then d else s
  | none => d

/-- Whether `sub` is a prefix of `s` (on character lists). -/
def listHasPrefix : List Char → List Char → Bool
  | _, [] => true
  | [], _ :: _ => false
  | c :: cs, d :: ds => c = d && listHasPrefix cs ds

/-- Whether `sub` occurs as a contiguous sublist of `s`. -/
def listIncludes (s sub : List Char) : Bool :=
  listHasPrefix s sub ||
    match s with
    | [] => false
    | _ :: cs => listIncludes cs sub

/-- JavaScript `String.prototype.includes`: substring containment (the
empty string is contained in every string, as in JS). -/
def stringIncludes (s sub : String) : Bool :=
  listIncludes s.data sub.data

/-! ## Configuration (`src/config/config.js`) -/

/-- The feature flags of `config.features`. -/
structure Features where
  enableLogging : Bool
  enableErrorHandler : Bool
  deriving Repr, DecidableEq

/-- The settings object exported by `src/config/config.js` (the fields the
middleware and routes read). -/
structure Config where
  port : Nat
  nodeEnv : String
  features : Features
  deriving Repr, DecidableEq

/-! ## Requests, errors and responses -/

/-- The parts of an Express request object the embedded handlers read:
method, url, the `Referer` header, the declared acceptable content type
(whether the client accepts JSON — present on every HTTP request, read by
none of the handlers), and the parsed `name`/`value` body fields of the
data-creation endpoint (absent field = `undefined`). -/
structure Request where
  method : String
  url : String
  referer : Option String
  acceptsJson : Bool
  bodyName : Option Json
  bodyValue : Option Json
  deriving Repr

/-- A propagated error (a JS `Error` with the optional `statusCode`,
`status` and `code` properties the terminal handler inspects). -/
structure Err where
  message : String
  stack : String
  statusCode : Option Nat
  status : Option Nat
  code : Option String
  deriving Repr, DecidableEq

/-- A response body: `res.send(string)`, `res.json(value)`,
`res.sendFile(path)`, or nothing (redirects). -/
inductive Body where
  | text : String → Body
  | json : Json → Body
  | file : String → Body
  | empty : Body
  deriving Repr

/-- Whether a body is a JSON body (`res.json`). -/
def Body.isJson : Body → Bool
  | .json _ => true
  | _ => false

/-- An outward HTTP response: status, body, `Location` header (set by
`res.redirect`), `Set-Cookie` headers, plus the non-wire local
`res.cookie` property assignment performed in `auth.js` (a plain property
write, not a `Set-Cookie` header). -/
structure Response where
  status : Nat
  body : Body
  location : Option String
  setCookieHeaders : List String
  cookieProp : Option String
  deriving Repr

/-- `res.status(s).send(text)`. -/
def textResponse (status : Nat) (s : String) : Response :=
  ⟨status, .text s, none, [], none⟩

/-- `res.status(s).json(j)`. -/
def jsonResponse (status : Nat) (j : Json) : Response :=
  ⟨status, .json j, none, [], none⟩

/-- `res.redirect(loc)`: status 302 with a `Location` header. -/
def redirectResponse (loc : String) : Response :=
  ⟨302, .empty, some loc, [], none⟩

/-- `res.sendFile(path)`: serves a static file with status 200. -/
def fileResponse (path : String) : Response :=
  ⟨200, .file path, none, [], none⟩

/-! ## Central error handling middleware (`src/middleware/errorHandler.js`) -/

/-- One `console.error('[ERROR]', {...})` record emitted by the terminal
error handler. -/
structure FaultLog where
  message : String
  stack : String
  url : String
  method : String
  timestamp : String
  deriving Repr, DecidableEq

/-- `errorHandler(err, req, res, next)` from
`src/middleware/errorHandler.js`.  `now` stands for
`new Date().toISOString()`.  Returns the fault logs written to the console
together with the outward response.

```js
if (!config.features.enableErrorHandler) {
  return res.status(500).send('Error handler is disabled');
}
console.error('[ERROR]', { message, stack, url, method, timestamp });
const statusCode = err.statusCode || err.status || 500;
const errorResponse = { success: false,
  error: { message: err.message || 'Internal Server Error',
           code: err.code || 'INTERNAL_ERROR', timestamp } };
if (config.nodeEnv === 'development') errorResponse.error.stack = err.stack;
res.status(statusCode).json(errorResponse);
```
-/
def errorHandler (config : Config) (err : Err) (req : Request) (now : String) :
    List FaultLog × Response :=
  if !config.features.enableErrorHandler then
    ([], textResponse 500 "Error handler is disabled")
  else
    let log : FaultLog :=
      ⟨err.message, err.stack, req.url, req.method, now⟩
    let statusCode := jsOrNat err.statusCode (jsOrNat err.status 500)
    let errFields : List (String × Json) :=
      [("message", .str (jsOrStr err.message "Internal Server Error")),
       ("code", .str (jsOrOptStr err.code "INTERNAL_ERROR")),
       ("timestamp", .str now)]
    let errFields :=
      if config.nodeEnv = "development" then
        errFields ++ [("stack", .str err.stack)]
      else errFields
    let errorResponse : Json :=
      .obj [("success", .bool false), ("error", .obj errFields)]
    ([log], jsonResponse statusCode errorResponse)

/-- `notFoundHandler(req, res, next)`: synthesizes the 404 fault for an
unmatched route and passes it to the terminal handler.

```js
const error = new Error(`Route not found: ${req.method} ${req.url}`);
error.statusCode = 404;
error.code = 'NOT_FOUND';
next(error);
```
A fresh JS `Error`'s stack begins with `Error: <message>`. -/
def notFoundHandler (req : Request) : Err :=
  let message := "Route not found: " ++ req.method ++ " " ++ req.url
  ⟨message, "Error: " ++ message, some 404, none, some "NOT_FOUND"⟩

/-- Extracts `error.code` from a JSON error-envelope body. -/
def Body.jsonErrorCode (b : Body) : Option String :=
  match b with
  | .json j =>
    match j.lookup "error" with
    | some e =>
      match e.lookup "code" with
      | some (.str c) => some c
      | _ => none
    | none => none
  | _ => none

/-- Extracts `error.stack` from a JSON error-envelope body. -/
def Body.jsonErrorStack (b : Body) : Option String :=
  match b with
  | .json j =>
    match j.lookup "error" with
    | some e =>
      match e.lookup "stack" with
      | some (.str s) => some s
      | _ => none
    | none => none
  | _ => none

/-- Whether a body is the JSON error envelope
`{success:false, error:{message, code, timestamp}}`: a JSON object whose
`success` field is `false` and whose `error` field is an object with
string `message`, `code` and `timestamp` fields. -/
def Body.isJsonEnvelope (b : Body) : Bool :=
  match b with
  | .json j =>
    match j.lookup "success", j.lookup "error" with
    | some (.bool false), some e =>
      (match e.lookup "message" with | some (.str _) => true | _ => false) &&
      (match e.lookup "code" with | some (.str _) => true | _ => false) &&
      (match e.lookup "timestamp" with | some (.str _) => true | _ => false)
    | _, _ => false
  | _ => false

/-! ## Request logger middleware (`src/middleware/logger.js`) -/

/-- ANSI green, the low-severity marker. -/
def greenColor : String := "\x1b[32m"

/-- ANSI yellow, the medium-severity marker. -/
def yellowColor : String := "\x1b[33m"

/-- ANSI red, the high-severity marker. -/
def redColor : String := "\x1b[31m"

/-- ANSI reset. -/
def resetColor : String := "\x1b[0m"

/-- The colour-coding of `logger`'s finish callback:

```js
let statusColor = '\x1b[32m'; // Green for 2xx
if (status >= 400 && status < 500) {
  statusColor = '\x1b[33m'; // Yellow for 4xx
} else if (status >= 500) {
  statusColor = '\x1b[31m'; // Red for 5xx
}
```
-/
def statusColor (status : Nat) : String :=
  if 400 ≤ status && status < 500 then yellowColor
  else if 500 ≤ status then redColor
  else greenColor

/-- The log line emitted once the response has finished:
`[timestamp] METHOD url COLOR status RESET durationms`. -/
def logLine (timestamp method url : String) (status duration : Nat) : String :=
  "[" ++ timestamp ++ "] " ++ method ++ " " ++ url ++ " " ++
    statusColor status ++ toString status ++ resetColor ++ " " ++
    toString duration ++ "ms"

/-! ## Authentication routes (`src/routes/auth.js`) -/

/-- The hardcoded demo credential pair. -/
structure Credentials where
  username : String
  password : String
  deriving Repr, DecidableEq

/-- `const DEMO_USER = { username: 'admin', password: 'password123' }`. -/
def DEMO_USER : Credentials := ⟨"admin", "password123"⟩

/-- A session record: `{ username, loginTime }`. -/
structure Session where
  username : String
  loginTime : String
  deriving Repr, DecidableEq

/-- The in-memory session store (`const sessions = new Map()`), modelled
as an association list from session id to session record. -/
abbrev Sessions := List (String × Session)

/-- `Map.prototype.set`: insert or overwrite a key. -/
def mapSet (m : Sessions) (k : String) (v : Session) : Sessions :=
  (k, v) :: m.filter (fun p => p.1 ≠ k)

/-- `Map.prototype.get`. -/
def mapGet (m : Sessions) (k : String) : Option Session :=
  m.lookup k

/-- The login-failed HTML page sent with status 401 on a credential
mismatch (the template literal in `src/routes/auth.js`; `\x7b` and `\x7d`
denote the braces of its CSS rules). -/
def loginFailedHtml : String :=
  "\n      <!DOCTYPE html>\n      <html>\n      <head>\n        <title>Login Failed</title>\n        <style>\n          body \x7b\n            font-family: Arial, sans-serif;\n            display: flex;\n            justify-content: center;\n            align-items: center;\n            min-height: 100vh;\n            background: linear-gradient(135deg, #667eea 0%, #764ba2 100%);\n          \x7d\n          .error-box \x7b\n            background: white;\n            padding: 40px;\n            border-radius: 20px;\n            text-align: center;\n            box-shadow: 0 20px 60px rgba(0, 0, 0, 0.3);\n          \x7d\n          h1 \x7b color: #f5576c; \x7d\n          a \x7b\n            display: inline-block;\n            margin-top: 20px;\n            padding: 10px 20px;\n            background: #667eea;\n            color: white;\n            text-decoration: none;\n            border-radius: 8px;\n          \x7d\n        </style>\n      </head>\n      <body>\n        <div class=\"error-box\">\n          <h1>❌ Login Failed</h1>\n          <p>Invalid username or password</p>\n          <a href=\"/login\">Try Again</a>\n        </div>\n      </body>\n      </html>\n    "

/-- `POST /login` from `src/routes/auth.js`.  `sessionId` stands for
`Date.now().toString()` and `now` for `new Date()`.  Returns the updated
session store and the response.

```js
const { username, password } = req.body;
if (username === DEMO_USER.username && password === DEMO_USER.password) {
  const sessionId = Date.now().toString();
  sessions.set(sessionId, { username, loginTime: new Date() });
  res.cookie = sessionId; // Simplified for demo
  res.redirect('/dashboard');
} else {
  res.status(401).send(`...login-failed HTML...`);
}
```
-/
def postLogin (sessions : Sessions) (username password : String)
    (sessionId now : String) : Sessions × Response :=
  if username = DEMO_USER.username && password = DEMO_USER.password then
    let sessions := mapSet sessions sessionId ⟨username, now⟩
    (sessions, { redirectResponse "/dashboard" with cookieProp := some sessionId })
  else
    (sessions, textResponse 401 loginFailedHtml)

/-- `GET /logout`: `sessions.clear(); res.redirect('/')`. -/
def getLogout (_sessions : Sessions) : Sessions × Response :=
  ([], redirectResponse "/")

/-! ## Dashboard route (`src/routes/dashboard.js`) -/

/-- `requireAuth(req, res, next)`: the weak referer-based gate.  Returns
`some response` when it responds itself (redirect to `/login`) and `none`
when it calls `next()`.

```js
const hasSession = req.headers.referer && req.headers.referer.includes('login');
if (!hasSession && req.method === 'GET') {
  return res.redirect('/login');
}
next();
```
-/
def requireAuth (req : Request) : Option Response :=
  let hasSession :=
    match req.referer with
    | some r => stringIncludes r "login"
    | none => false
  if !hasSession && req.method = "GET" then
    some (redirectResponse "/login")
  else
    none

/-- The static file the dashboard route serves on pass-through. -/
def dashboardViewPath : String := "../views/dashboard.html"

/-- `GET /dashboard`: `requireAuth` then
`res.sendFile('../views/dashboard.html')`.  Takes the session store as
explicit server state even though the gate never reads it. -/
def getDashboard (_sessions : Sessions) (req : Request) : Response :=
  match requireAuth req with
  | some r => r
  | none => fileResponse dashboardViewPath

/-! ## API routes (`src/routes/api.js`, reproduced in `README.md`) -/

/-- The 400 body of `POST /api/data` on missing fields. -/
def missingFieldsJson : Json :=
  .obj [("success", .bool false),
        ("error", .str "Missing required fields: name and value")]

/-- The 201 body of `POST /api/data` on success: echoes `name` and `value`
plus the generated `id` (`Date.now()`). -/
def createdJson (name value : Json) (id : Int) : Json :=
  .obj [("success", .bool true),
        ("message", .str "Data created successfully"),
        ("data", .obj [("name", name), ("value", value), ("id", .num id)])]

/-- `POST /api/data`.  `id` stands for `Date.now()`.

```js
const { name, value } = req.body;
if (!name || !value) {
  return res.status(400).json({ success: false,
    error: 'Missing required fields: name and value' });
}
res.status(201).json({ success: true,
  message: 'Data created successfully', data: { name, value, id: Date.now() } });
```
-/
def postApiData (req : Request) (id : Int) : Response :=
  if jsNot req.bodyName || jsNot req.bodyValue then
    jsonResponse 400 missingFieldsJson
  else
    jsonResponse 201
      (createdJson (req.bodyName.getD .null) (req.bodyValue.getD .null) id)

/-! ## Concrete fixtures used by witnesses and counterexamples -/

/-- The default configuration (`NODE_ENV=development`, both toggles on). -/
def cfgDev : Config := ⟨3000, "development", ⟨true, true⟩⟩

/-- A production configuration with both toggles on. -/
def cfgProd : Config := ⟨3000, "production", ⟨true, true⟩⟩

/-- A production configuration with `ENABLE_ERROR_HANDLER=false`. -/
def cfgNoHandler : Config := ⟨3000, "production", ⟨true, false⟩⟩

/-- A browser-style request that does not declare JSON acceptance. -/
def reqHtmlClient : Request := ⟨"GET", "/nope", none, false, none, none⟩

/-- A JSON-accepting request to an unmatched route. -/
def reqJsonClient : Request := ⟨"GET", "/nope", none, true, none, none⟩

/-- A `POST /api/data` body with `name` present and truthy but `value`
present and falsy (the empty string). -/
def reqFalsyValue : Request :=
  ⟨"POST", "/api/data", none, true, some (.str "test"), some (.str "")⟩

/-- A `POST /api/data` body with both fields present and truthy. -/
def reqGoodBody : Request :=
  ⟨"POST", "/api/data", none, true, some (.str "test"), some (.str "123")⟩

/-- A sample fault carrying a non-500 status. -/
def sampleErr : Err := ⟨"boom", "Error: boom", some 404, none, some "SOME_CODE"⟩

/-- The wire-observable part of a response: status, body, `Location`
header and `Set-Cookie` headers — everything the client receives, without
the local `cookieProp` property write. -/
def wireView (r : Response) : Nat × Body × Option String × List String :=
  (r.status, r.body, r.location, r.setCookieHeaders)

/-- A `GET /dashboard` request with no `Referer` header. -/
def reqDashNoRef : Request := ⟨"GET", "/dashboard", none, false, none, none⟩

/-- A `GET /dashboard` request whose `Referer` contains `login`. -/
def reqDashFromLogin : Request :=
  ⟨"GET", "/dashboard", some "http://localhost:3000/login", false, none, none⟩

end ServerModel

namespace ServerModel

/-! ## Theorems -/

/-- Claim C2.  For every logged request, the log line's visual severity marker
is selected by status-code banding: statuses in [200,300) get the
low-severity marker (green), statuses in [400,500) get the medium marker
(yellow), and statuses in [500,600) get the high marker (red). -/
theorem statusColor_banding (s : Nat) :
    (200 ≤ s ∧ s < 300 → statusColor s = greenColor) ∧
    (400 ≤ s ∧ s < 500 → statusColor s = yellowColor) ∧
    (500 ≤ s ∧ s < 600 → statusColor s = redColor) := by
  refine ⟨fun h => ?_, fun h => ?_, fun h => ?_⟩ <;>
    simp only [statusColor, decide_eq_true_eq, Bool.and_eq_true] <;>
    [skip; skip; skip] <;>
    first
      | (rw [if_neg, if_neg] <;> omega)
      | (rw [if_pos] <;> omega)
      | (rw [if_neg, if_pos] <;> omega)

/-- Witness for C2 at statuses 200, 404 and 503. -/
theorem statusColor_banding_witness :
    statusColor 200 = greenColor ∧ statusColor 404 = yellowColor ∧
    statusColor 503 = redColor :=
  ⟨(statusColor_banding 200).1 (by omega),
   (statusColor_banding 404).2.1 (by omega),
   (statusColor_banding 503).2.2 (by omega)⟩

/-- Claim C4.  For every fault reaching the terminal handler while the
error-handler feature toggle is disabled, the response is exactly a bare
HTTP 500 with a plain-text body and no JSON structure, regardless of the
status the fault carries, and no fault logging is performed (the log list
is empty). -/
theorem errorHandler_disabled_bare_500 (cfg : Config) (err : Err)
    (req : Request) (now : String)
    (h : cfg.features.enableErrorHandler = false) :
    errorHandler cfg err req now = ([], textResponse 500 "Error handler is disabled") ∧
    ((errorHandler cfg err req now).2.body).isJson = false := by
  simp [errorHandler, h, textResponse, Body.isJson]

/-- Witness for C4: a fault carrying status 404 still produces the bare
500 text response with no log entry when the toggle is off. -/
theorem errorHandler_disabled_bare_500_witness :
    errorHandler cfgNoHandler sampleErr reqJsonClient "T" =
      ([], textResponse 500 "Error handler is disabled") ∧
    ((errorHandler cfgNoHandler sampleErr reqJsonClient "T").2.body).isJson = false :=
  errorHandler_disabled_bare_500 cfgNoHandler sampleErr reqJsonClient "T" rfl

/-- Counterexample to claim C1 as stated: a request that does not declare
structured-data acceptance (`acceptsJson = false`) still receives the JSON
envelope from the terminal handler — there is no HTML branch in
`errorHandler`. -/
theorem errorHandler_no_html_branch_counterexample :
    reqHtmlClient.acceptsJson = false ∧
    (errorHandler cfgProd (notFoundHandler reqHtmlClient) reqHtmlClient "T").2 =
      jsonResponse 404
        (.obj [("success", .bool false),
               ("error", .obj [("message", .str "Route not found: GET /nope"),
                               ("code", .str "NOT_FOUND"),
                               ("timestamp", .str "T")])]) :=
  ⟨rfl, rfl⟩

/-- Claim C1 (amended).  For every request that reaches the terminal error
handler with the error-handler toggle enabled, the response body is the
JSON envelope `{success:false, error:{message, code, timestamp}}`
regardless of the request's declared acceptable content type: the response
does not depend on the request at all, so a request that does not accept
structured data receives the same JSON envelope, not an HTML page. -/
theorem errorHandler_always_json_envelope (cfg : Config) (err : Err)
    (req req' : Request) (now : String)
    (h : cfg.features.enableErrorHandler = true) :
    ((errorHandler cfg err req now).2.body).isJsonEnvelope = true ∧
    (errorHandler cfg err req now).2 = (errorHandler cfg err req' now).2 := by
  by_cases hd : cfg.nodeEnv = "development" <;>
    simp [errorHandler, h, hd, Body.isJsonEnvelope, Json.lookup, jsonResponse,
      List.lookup]

/-- Witness for C1 (amended): a browser-style and a JSON-accepting request
receive the same JSON envelope. -/
theorem errorHandler_always_json_envelope_witness :
    ((errorHandler cfgProd sampleErr reqHtmlClient "T").2.body).isJsonEnvelope = true ∧
    (errorHandler cfgProd sampleErr reqHtmlClient "T").2 =
      (errorHandler cfgProd sampleErr reqJsonClient "T").2 :=
  errorHandler_always_json_envelope cfgProd sampleErr reqHtmlClient reqJsonClient "T" rfl

/-- Claim C3.  For every request whose method/path matches no registered
route, `notFoundHandler` synthesizes a fault with HTTP status 404, code
`NOT_FOUND` and a message embedding the request's method and path, and
(with the error-handler toggle enabled) the terminal handler's response
has status 404 with a JSON body whose `error.code` is `NOT_FOUND` — in
particular for every JSON-accepting client. -/
theorem notFound_pipeline (cfg : Config) (req : Request) (now : String)
    (h : cfg.features.enableErrorHandler = true) :
    (notFoundHandler req).statusCode = some 404 ∧
    (notFoundHandler req).code = some "NOT_FOUND" ∧
    (notFoundHandler req).message = "Route not found: " ++ req.method ++ " " ++ req.url ∧
    (errorHandler cfg (notFoundHandler req) req now).2.status = 404 ∧
    ((errorHandler cfg (notFoundHandler req) req now).2.body).jsonErrorCode =
      some "NOT_FOUND" := by
  refine ⟨rfl, rfl, rfl, ?_, ?_⟩ <;>
    by_cases hd : cfg.nodeEnv = "development" <;>
      simp [errorHandler, notFoundHandler, h, hd, jsOrNat, jsOrOptStr,
        jsonResponse, Body.jsonErrorCode, Json.lookup, List.lookup]

/-- Witness for C3 at a concrete unmatched `GET /nope`. -/
theorem notFound_pipeline_witness :
    (notFoundHandler reqJsonClient).statusCode = some 404 ∧
    (notFoundHandler reqJsonClient).code = some "NOT_FOUND" ∧
    (notFoundHandler reqJsonClient).message =
      "Route not found: " ++ reqJsonClient.method ++ " " ++ reqJsonClient.url ∧
    (errorHandler cfgProd (notFoundHandler reqJsonClient) reqJsonClient "T").2.status = 404 ∧
    ((errorHandler cfgProd (notFoundHandler reqJsonClient) reqJsonClient "T").2.body).jsonErrorCode =
      some "NOT_FOUND" :=
  notFound_pipeline cfgProd reqJsonClient "T" rfl

/-- Claim C5.  `POST /login` with the demo credential pair
`admin`/`password123` stores a new session record and responds with a
redirect to `/dashboard`; any other username/password pair leaves the
store unchanged and responds with HTTP 401 and the rendered HTML failure
page — never 200. -/
theorem postLogin_contract (sessions : Sessions) (u p sid now : String) :
    (u = DEMO_USER.username ∧ p = DEMO_USER.password →
      (postLogin sessions u p sid now).1 = mapSet sessions sid ⟨u, now⟩ ∧
      mapGet (postLogin sessions u p sid now).1 sid = some ⟨u, now⟩ ∧
      (postLogin sessions u p sid now).2.status = 302 ∧
      (postLogin sessions u p sid now).2.location = some "/dashboard") ∧
    (¬(u = DEMO_USER.username ∧ p = DEMO_USER.password) →
      (postLogin sessions u p sid now).2.status = 401 ∧
      (postLogin sessions u p sid now).2.body = .text loginFailedHtml ∧
      (postLogin sessions u p sid now).2.status ≠ 200 ∧
      (postLogin sessions u p sid now).1 = sessions) := by
  constructor
  · rintro ⟨hu, hp⟩
    subst hu hp
    simp [postLogin, DEMO_USER, mapSet, mapGet, redirectResponse, List.lookup]
  · intro hn
    have hb : (decide (u = DEMO_USER.username) && decide (p = DEMO_USER.password)) = false := by
      rcases Decidable.not_and_iff_or_not.mp hn with h | h <;> simp [h]
    simp [postLogin, hb, textResponse]

/-- Witness for C5: the demo pair logs in and redirects; a wrong password
gets 401 with the HTML failure page, not 200. -/
theorem postLogin_contract_witness :
    (mapGet (postLogin [] "admin" "password123" "1700" "T").1 "1700" = some ⟨"admin", "T"⟩ ∧
     (postLogin [] "admin" "password123" "1700" "T").2.status = 302 ∧
     (postLogin [] "admin" "password123" "1700" "T").2.location = some "/dashboard") ∧
    ((postLogin [] "admin" "wrong" "1700" "T").2.status = 401 ∧
     (postLogin [] "admin" "wrong" "1700" "T").2.body = .text loginFailedHtml ∧
     (postLogin [] "admin" "wrong" "1700" "T").2.status ≠ 200) :=
  ⟨⟨((postLogin_contract [] "admin" "password123" "1700" "T").1 ⟨rfl, rfl⟩).2.1,
    ((postLogin_contract [] "admin" "password123" "1700" "T").1 ⟨rfl, rfl⟩).2.2.1,
    ((postLogin_contract [] "admin" "password123" "1700" "T").1 ⟨rfl, rfl⟩).2.2.2⟩,
   ⟨((postLogin_contract [] "admin" "wrong" "1700" "T").2 (by simp [DEMO_USER])).1,
    ((postLogin_contract [] "admin" "wrong" "1700" "T").2 (by simp [DEMO_USER])).2.1,
    ((postLogin_contract [] "admin" "wrong" "1700" "T").2 (by simp [DEMO_USER])).2.2.1⟩⟩

/-- Counterexample to claim C6 as stated: a `POST /api/data` body with
both fields present (`name: "test"`, `value: ""`) responds 400, not
201. -/
theorem postApiData_present_falsy_counterexample :
    reqFalsyValue.bodyName.isSome = true ∧
    reqFalsyValue.bodyValue.isSome = true ∧
    (postApiData reqFalsyValue 0).status = 400 ∧
    (postApiData reqFalsyValue 0).status ≠ 201 :=
  ⟨rfl, rfl, rfl, by decide⟩

/-- Claim C6 (amended).  `POST /api/data` responds 400 with a JSON body
whose `success` field is `false` when the body lacks the field `name` or
the field `value` or has either present with a falsy value; when both
fields are present with truthy values it responds 201 with a JSON body
whose `success` field is `true`, echoing `name` and `value` plus the
generated identifier. -/
theorem postApiData_validation (req : Request) (id : Int) :
    ((req.bodyName = none ∨ (∃ n, req.bodyName = some n ∧ n.truthy = false) ∨
      req.bodyValue = none ∨ (∃ v, req.bodyValue = some v ∧ v.truthy = false)) →
      postApiData req id = jsonResponse 400 missingFieldsJson) ∧
    (∀ n v, req.bodyName = some n → req.bodyValue = some v →
      n.truthy = true → v.truthy = true →
      postApiData req id = jsonResponse 201 (createdJson n v id)) := by
  constructor
  · rintro (h | ⟨n, hn, ht⟩ | h | ⟨v, hv, ht⟩)
    · simp [postApiData, jsNot, h]
    · simp [postApiData, jsNot, hn, ht]
    · simp [postApiData, jsNot, h]
    · simp [postApiData, jsNot, hv, ht]
  · intro n v hn hv htn htv
    simp [postApiData, jsNot, hn, hv, htn, htv]

/-- Witness for C6 (amended): a body with both fields absent gets the 400
missing-fields response; a body with both fields truthy gets the 201 echo
response. -/
theorem postApiData_validation_witness :
    postApiData reqJsonClient 0 = jsonResponse 400 missingFieldsJson ∧
    postApiData reqGoodBody 7 =
      jsonResponse 201 (createdJson (.str "test") (.str "123") 7) :=
  ⟨(postApiData_validation reqJsonClient 0).1 (Or.inl rfl),
   (postApiData_validation reqGoodBody 7).2 (.str "test") (.str "123") rfl rfl rfl rfl⟩

/-- Claim C7.  For every fault rendered by the terminal error handler as
JSON, the response's `error.stack` field is present (and equal to the
fault's stack) if and only if the configured environment name is
`development`; in every other environment it is absent. -/
theorem errorHandler_stack_iff_development (cfg : Config) (err : Err)
    (req : Request) (now : String)
    (h : cfg.features.enableErrorHandler = true) :
    ((errorHandler cfg err req now).2.body).jsonErrorStack =
      (if cfg.nodeEnv = "development" then some err.stack else none) ∧
    (((errorHandler cfg err req now).2.body).jsonErrorStack ≠ none ↔
      cfg.nodeEnv = "development") := by
  by_cases hd : cfg.nodeEnv = "development" <;>
    simp [errorHandler, h, hd, Body.jsonErrorStack, Json.lookup, jsonResponse,
      List.lookup]

/-- Witness for C7 in the development environment. -/
theorem errorHandler_stack_iff_development_witness :
    (((errorHandler cfgDev sampleErr reqJsonClient "T").2.body).jsonErrorStack =
      (if cfgDev.nodeEnv = "development" then some sampleErr.stack else none)) ∧
    ((((errorHandler cfgDev sampleErr reqJsonClient "T").2.body).jsonErrorStack ≠ none) ↔
      cfgDev.nodeEnv = "development") :=
  errorHandler_stack_iff_development cfgDev sampleErr reqJsonClient "T" rfl

/-- Claim C8.  For every `GET` request to the protected dashboard page, if
the `Referer` header is absent or does not contain the substring `login`
the response is a redirect to `/login`; if it contains `login` the
protected page is served; and the response never depends on the stored
session map. -/
theorem dashboard_gate_referer (s s' : Sessions) (req : Request)
    (hm : req.method = "GET") :
    ((req.referer = none ∨ ∃ r, req.referer = some r ∧ stringIncludes r "login" = false) →
      getDashboard s req = redirectResponse "/login") ∧
    (∀ r, req.referer = some r → stringIncludes r "login" = true →
      getDashboard s req = fileResponse dashboardViewPath) ∧
    getDashboard s req = getDashboard s' req := by
  refine ⟨?_, ?_, rfl⟩
  · rintro (h | ⟨r, hr, hnl⟩)
    · simp [getDashboard, requireAuth, h, hm]
    · simp [getDashboard, requireAuth, hr, hnl, hm]
  · intro r hr hl
    simp [getDashboard, requireAuth, hr, hl, hm]

/-- Witness for C8: no referer redirects to `/login`; a login referer
serves the page, with an empty and a non-empty session store alike. -/
theorem dashboard_gate_referer_witness :
    getDashboard [] reqDashNoRef = redirectResponse "/login" ∧
    getDashboard [] reqDashFromLogin = fileResponse dashboardViewPath ∧
    getDashboard [] reqDashFromLogin = getDashboard [("1", ⟨"admin", "T"⟩)] reqDashFromLogin :=
  ⟨(dashboard_gate_referer [] [] reqDashNoRef rfl).1 (Or.inl rfl),
   (dashboard_gate_referer [] [] reqDashFromLogin rfl).2.1
     "http://localhost:3000/login" rfl (by decide),
   (dashboard_gate_referer [] [("1", ⟨"admin", "T"⟩)] reqDashFromLogin rfl).2.2⟩

/-- Claim C9.  `POST /api/data` treats a `name` or `value` field that is
present but falsy (empty string, 0, false, or null) the same as an absent
field: the response is HTTP 400 with the missing-fields error, identical
to the response for the absent-fields body, not 201. -/
theorem postApiData_falsy_as_missing (req : Request) (id : Int)
    (h : (∃ n, req.bodyName = some n ∧ n.truthy = false) ∨
         (∃ v, req.bodyValue = some v ∧ v.truthy = false)) :
    postApiData req id = jsonResponse 400 missingFieldsJson ∧
    postApiData req id = postApiData { req with bodyName := none, bodyValue := none } id := by
  rcases h with ⟨n, hn, ht⟩ | ⟨v, hv, ht⟩
  · simp [postApiData, jsNot, hn, ht]
  · simp [postApiData, jsNot, hv, ht]

/-- Witness for C9: `value` present as the empty string behaves like an
absent field. -/
theorem postApiData_falsy_as_missing_witness :
    postApiData reqFalsyValue 0 = jsonResponse 400 missingFieldsJson ∧
    postApiData reqFalsyValue 0 =
      postApiData { reqFalsyValue with bodyName := none, bodyValue := none } 0 :=
  postApiData_falsy_as_missing reqFalsyValue 0 (Or.inr ⟨.str "", rfl, rfl⟩)

/-- Claim C10.  For every successful `POST /login`, the response sent to
the client contains no session identifier: the generated token is stored
server-side and assigned to the local `res.cookie` property, but the wire
response (status, body, `Location`, `Set-Cookie` headers) carries no
cookie and is identical whatever token was generated. -/
theorem postLogin_token_not_in_response (sessions : Sessions) (u p sid sid' now : String)
    (h : u = DEMO_USER.username ∧ p = DEMO_USER.password) :
    (postLogin sessions u p sid now).2.setCookieHeaders = [] ∧
    (postLogin sessions u p sid now).2.location = some "/dashboard" ∧
    (postLogin sessions u p sid now).2.body = .empty ∧
    (postLogin sessions u p sid now).2.cookieProp = some sid ∧
    mapGet (postLogin sessions u p sid now).1 sid = some ⟨u, now⟩ ∧
    wireView (postLogin sessions u p sid now).2 = wireView (postLogin sessions u p sid' now).2 := by
  obtain ⟨hu, hp⟩ := h
  subst hu hp
  simp [postLogin, DEMO_USER, mapSet, mapGet, redirectResponse, wireView, List.lookup]

/-- Witness for C10: two different generated tokens produce the same wire
response. -/
theorem postLogin_token_not_in_response_witness :
    (postLogin [] "admin" "password123" "1700" "T").2.setCookieHeaders = [] ∧
    (postLogin [] "admin" "password123" "1700" "T").2.location = some "/dashboard" ∧
    (postLogin [] "admin" "password123" "1700" "T").2.body = .empty ∧
    (postLogin [] "admin" "password123" "1700" "T").2.cookieProp = some "1700" ∧
    mapGet (postLogin [] "admin" "password123" "1700" "T").1 "1700" = some ⟨"admin", "T"⟩ ∧
    wireView (postLogin [] "admin" "password123" "1700" "T").2 =
      wireView (postLogin [] "admin" "password123" "9999" "T").2 :=
  postLogin_token_not_in_response [] "admin" "password123" "1700" "9999" "T" ⟨rfl, rfl⟩

end ServerModel
